import Mathlib

/-!
Shallow embedding of `src/modbus_reader.py` (class `ModbusReader`).

Modelling decisions:
* The transport (`ModbusReader.read_holding_registers`, i.e. the TCP client
  plus connection state) is replaced by an oracle
  `Transport : Nat → Nat → Option (List Nat)`: given a starting address and a
  register count it returns either the list of raw 16-bit words or `none`
  (the source returns `None` on any transport failure).
* Python runtime values returned by the readers are modelled by `PyVal`.
  IEEE-754 floats produced by `struct.unpack` are represented by their bit
  patterns (`PyVal.float32 bits` / `PyVal.float64 bits`): the byte-to-float
  reinterpretation is a bijection on bit patterns (up to NaN payloads),
  so every byte-level statement below transfers bit-exactly to floats.
* A raised Python exception is modelled by `Except.error`; the only
  exception reachable in the decoding code is an out-of-range list index
  (`PyErr.indexError`).  A function that returns `None` is modelled by
  `Except.ok none`.
* `print` calls of `read_custom` (its unsupported-type diagnostics) are
  modelled as the first component of its result pair; the other readers'
  prints happen inside the transport and are out of scope.
* The `Timestamp` column of `read_multiple` (wall-clock `datetime.now()`)
  is omitted from `Row`; no statement below concerns it.
-/

namespace ModbusSpec

/-- Transport oracle standing for `ModbusReader.read_holding_registers`:
`t address count` is the list of raw register words, or `none` on failure. -/
def Transport : Type := Nat → Nat → Option (List Nat)

/-- The only Python exception reachable in the decoding code:
an out-of-range list index (`registers[i]` with `i ≥ len(registers)`). -/
inductive PyErr where
  | indexError : PyErr
deriving DecidableEq

/-- Model of the Python runtime values produced by the readers.
Floats are represented by their IEEE-754 bit patterns. -/
inductive PyVal where
  | int : Int → PyVal
  | float32 : Nat → PyVal
  | float64 : Nat → PyVal
  | bool : Bool → PyVal
  | str : String → PyVal
  | list : List PyVal → PyVal

/-- Model of Python's `isinstance(value, list)`. -/
def PyVal.isList : PyVal → Bool
  | .list _ => true
  | _ => false

/-- Model of the `**kwargs` dictionary accepted by `read_custom`
(`kwargs.get('signed', True)`, `kwargs.get('byte_order', 'big')`). -/
structure Kwargs where
  signed : Option Bool := none
  byte_order : Option String := none

/-- One entry of the `register_map` dictionary list taken by `read_multiple`;
`none` fields model absent dictionary keys (resolved by `.get` with the
defaults used in the source). -/
structure RegConfig where
  name : Option String := none
  address : Nat
  data_type : String
  count : Option Nat := none
  unit : Option String := none
  description : Option String := none
  options : Kwargs := {}

/-- One result row of `read_multiple` (the `Timestamp` column is omitted,
see the header comment). -/
structure Row where
  name : String
  address : Nat
  data_type : String
  value : PyVal
  unit : String
  description : String

/-- Python's `str.upper()` on the ASCII type-name strings used here. -/
def upper (s : String) : String := ⟨s.data.map Char.toUpper⟩

/-- `struct.pack('>H', w)` for a register word `w < 2 ^ 16`:
the two bytes, high first. -/
def pack16be (w : Nat) : List Nat := [w / 256, w % 256]

/-- `struct.pack('<H', w)` for a register word `w < 2 ^ 16`:
the two bytes, low first. -/
def pack16le (w : Nat) : List Nat := [w % 256, w / 256]

/-- Reading a byte buffer as a big-endian unsigned integer (the bit pattern
extracted by `struct.unpack('>f')` / `struct.unpack('>d')`). -/
def unpack_be (bs : List Nat) : Nat := bs.foldl (fun acc b => acc * 256 + b) 0

/-- Reading a byte buffer as a little-endian unsigned integer (the bit
pattern extracted by `struct.unpack('<f')` / `struct.unpack('<d')`). -/
def unpack_le (bs : List Nat) : Nat := unpack_be bs.reverse

/-- The common tail `return values[0] if count == 1 else values` of the
readers; `values[0]` on an empty list raises `IndexError`. -/
def wrap (count : Nat) (values : List PyVal) : Except PyErr PyVal :=
  if count = 1 then
    match values with
    | [] => .error .indexError
    | v :: _ => .ok v
  else .ok (.list values)

/-- `ModbusReader.read_int16`: fetch `count` registers, reinterpret each as
signed (two's complement, `reg > 32767 ⇒ reg - 65536`) when `signed`. -/
def read_int16 (t : Transport) (address count : Nat) (signed : Bool) :
    Except PyErr (Option PyVal) :=
  match t address count with
  | none => .ok none
  | some registers =>
    let values : List Int := registers.map fun (reg : Nat) =>
      if signed then
        (if reg > 32767 then (reg : Int) - 65536 else (reg : Int))
      else (reg : Int)
    match wrap count (values.map PyVal.int) with
    | .error e => .error e
    | .ok v => .ok (some v)

/-- The register-combining loop of `read_int32`
(`for i in range(0, len(registers), 2)`), including the `IndexError`
raised by `registers[i + 1]` when the list has odd length. -/
def int32_core : List Nat → String → Except PyErr (List Int)
  | [], _ => .ok []
  | [_], _ => .error .indexError
  | r0 :: r1 :: rest, byte_order =>
    let value : Nat :=
      if byte_order = "big" then (r0 <<< 16) ||| r1 else (r1 <<< 16) ||| r0
    let signed_value : Int :=
      if value > 2147483647 then (value : Int) - 4294967296 else (value : Int)
    match int32_core rest byte_order with
    | .error e => .error e
    | .ok values => .ok (signed_value :: values)

/-- `ModbusReader.read_int32`: fetch `count * 2` registers and combine
register pairs into signed 32-bit integers. -/
def read_int32 (t : Transport) (address count : Nat) (byte_order : String) :
    Except PyErr (Option PyVal) :=
  match t address (count * 2) with
  | none => .ok none
  | some registers =>
    match int32_core registers byte_order with
    | .error e => .error e
    | .ok values =>
      match wrap count (values.map PyVal.int) with
      | .error e => .error e
      | .ok v => .ok (some v)

/-- The register-combining loop of `read_float32`: each register pair is
packed with `struct.pack('>HH', r0, r1)` (big) or `struct.pack('<HH', r0, r1)`
(little) and the 4-byte buffer unpacked as an IEEE-754 single-precision
float with the matching endianness; the result is its bit pattern. -/
def float32_core : List Nat → String → Except PyErr (List Nat)
  | [], _ => .ok []
  | [_], _ => .error .indexError
  | r0 :: r1 :: rest, byte_order =>
    let bytes_data : List Nat :=
      if byte_order = "big" then pack16be r0 ++ pack16be r1
      else pack16le r0 ++ pack16le r1
    let bits : Nat :=
      if byte_order = "big" then unpack_be bytes_data else unpack_le bytes_data
    match float32_core rest byte_order with
    | .error e => .error e
    | .ok values => .ok (bits :: values)

/-- `ModbusReader.read_float32`: fetch `count * 2` registers and combine
register pairs into single-precision floats (bit patterns here). -/
def read_float32 (t : Transport) (address count : Nat) (byte_order : String) :
    Except PyErr (Option PyVal) :=
  match t address (count * 2) with
  | none => .ok none
  | some registers =>
    match float32_core registers byte_order with
    | .error e => .error e
    | .ok values =>
      match wrap count (values.map PyVal.float32) with
      | .error e => .error e
      | .ok v => .ok (some v)

/-- The register-combining loop of `read_float64`
(`for i in range(0, len(registers), 4)`): big order packs
`struct.pack('>HHHH', r0, r1, r2, r3)`, little order packs
`struct.pack('<HHHH', r3, r2, r1, r0)`; the 8-byte buffer is unpacked as an
IEEE-754 double with the matching endianness (bit pattern here). -/
def float64_core : List Nat → String → Except PyErr (List Nat)
  | [], _ => .ok []
  | [_], _ => .error .indexError
  | [_, _], _ => .error .indexError
  | [_, _, _], _ => .error .indexError
  | r0 :: r1 :: r2 :: r3 :: rest, byte_order =>
    let bytes_data : List Nat :=
      if byte_order = "big" then
        pack16be r0 ++ pack16be r1 ++ pack16be r2 ++ pack16be r3
      else pack16le r3 ++ pack16le r2 ++ pack16le r1 ++ pack16le r0
    let bits : Nat :=
      if byte_order = "big" then unpack_be bytes_data else unpack_le bytes_data
    match float64_core rest byte_order with
    | .error e => .error e
    | .ok values => .ok (bits :: values)

/-- `ModbusReader.read_float64`: fetch `count * 4` registers and combine
register quadruples into double-precision floats (bit patterns here). -/
def read_float64 (t : Transport) (address count : Nat) (byte_order : String) :
    Except PyErr (Option PyVal) :=
  match t address (count * 4) with
  | none => .ok none
  | some registers =>
    match float64_core registers byte_order with
    | .error e => .error e
    | .ok values =>
      match wrap count (values.map PyVal.float64) with
      | .error e => .error e
      | .ok v => .ok (some v)

/-- The 16 booleans extracted from one register by `read_bitmap`:
`bool(reg & (1 << i))` for `i = 0..15`. -/
def bitmap_bits (reg : Nat) : List PyVal :=
  (List.range 16).map fun i => PyVal.bool ((reg &&& (1 <<< i)) != 0)

/-- `ModbusReader.read_bitmap`: fetch `count` registers; with `count == 1`
return the 16 bits of `registers[0]` (raising `IndexError` on an empty
list), otherwise one 16-bit list per register. -/
def read_bitmap (t : Transport) (address count : Nat) :
    Except PyErr (Option PyVal) :=
  match t address count with
  | none => .ok none
  | some registers =>
    if count = 1 then
      match registers with
      | [] => .error .indexError
      | reg :: _ => .ok (some (.list (bitmap_bits reg)))
    else .ok (some (.list (registers.map fun reg => .list (bitmap_bits reg))))

/-- `ModbusReader.read_custom`: uppercase the type name and dispatch.
The first component collects the `print` output of the unsupported-type
branch; the second is the returned value. -/
def read_custom (t : Transport) (address : Nat) (data_type : String)
    (count : Nat) (kwargs : Kwargs) :
    List String × Except PyErr (Option PyVal) :=
  let dt := upper data_type
  if dt = "INT16" then ([], read_int16 t address count (kwargs.signed.getD true))
  else if dt = "INT32" then
    ([], read_int32 t address count (kwargs.byte_order.getD "big"))
  else if dt = "FLOAT32" then
    ([], read_float32 t address count (kwargs.byte_order.getD "big"))
  else if dt = "FLOAT64" then
    ([], read_float64 t address count (kwargs.byte_order.getD "big"))
  else if dt = "BITMAP" then ([], read_bitmap t address count)
  else
    (["✗ Unsupported data type: " ++ dt,
      "Supported types: INT16, INT32, FLOAT32, FLOAT64, BITMAP"], .ok none)

/-- The per-row address increment used by `read_multiple`:
`2 if data_type in ['INT32', 'FLOAT32'] else 4 if data_type == 'FLOAT64'
else 1` — note the comparison is against the descriptor's original
(not uppercased) string. -/
def row_stride (data_type : String) : Nat :=
  if data_type = "INT32" ∨ data_type = "FLOAT32" then 2
  else if data_type = "FLOAT64" then 4
  else 1

/-- The body of `read_multiple`'s loop for one `reg_config` entry: resolve
the dictionary defaults, call `read_custom`, and build this entry's rows
(several rows when the value is a list and `count > 1`, an `'Error'` row
when the value is `None`, one row otherwise). -/
def process_config (t : Transport) (cfg : RegConfig) :
    Except PyErr (List Row) :=
  let name := cfg.name.getD ("Register_" ++ toString cfg.address)
  let count := cfg.count.getD 1
  let unit := cfg.unit.getD ""
  let description := cfg.description.getD ""
  match (read_custom t cfg.address cfg.data_type count cfg.options).2 with
  | .error e => .error e
  | .ok (some (PyVal.list vs)) =>
    if count > 1 then
      .ok (vs.enum.map fun p =>
        ⟨name ++ "[" ++ toString p.1 ++ "]",
         cfg.address + p.1 * row_stride cfg.data_type,
         cfg.data_type, p.2, unit, description⟩)
    else .ok [⟨name, cfg.address, cfg.data_type, PyVal.list vs, unit, description⟩]
  | .ok (some v) => .ok [⟨name, cfg.address, cfg.data_type, v, unit, description⟩]
  | .ok none =>
    .ok [⟨name, cfg.address, cfg.data_type, PyVal.str "Error", unit, description⟩]

/-- `ModbusReader.read_multiple`: process the register map in order,
concatenating each entry's rows (an uncaught exception aborts the loop,
as in Python). -/
def read_multiple (t : Transport) : List RegConfig → Except PyErr (List Row)
  | [] => .ok []
  | cfg :: rest =>
    match process_config t cfg with
    | .error e => .error e
    | .ok rows =>
      match read_multiple t rest with
      | .error e => .error e
      | .ok more => .ok (rows ++ more)

/-! ### Helper lemmas -/

theorem int32_core_notbig : ∀ (regs : List Nat) (bo : String), bo ≠ "big" →
    int32_core regs bo = int32_core regs "little"
  | [], _, _ => rfl
  | [_], _, _ => rfl
  | r0 :: r1 :: rest, bo, h => by
    have ih := int32_core_notbig rest bo h
    simp only [int32_core, if_neg h,
      if_neg (show ¬ ("little" : String) = "big" by decide), ih]

theorem float32_core_notbig : ∀ (regs : List Nat) (bo : String), bo ≠ "big" →
    float32_core regs bo = float32_core regs "little"
  | [], _, _ => rfl
  | [_], _, _ => rfl
  | r0 :: r1 :: rest, bo, h => by
    have ih := float32_core_notbig rest bo h
    simp only [float32_core, if_neg h,
      if_neg (show ¬ ("little" : String) = "big" by decide), ih]

theorem float64_core_notbig : ∀ (regs : List Nat) (bo : String), bo ≠ "big" →
    float64_core regs bo = float64_core regs "little"
  | [], _, _ => rfl
  | [_], _, _ => rfl
  | [_, _], _, _ => rfl
  | [_, _, _], _, _ => rfl
  | r0 :: r1 :: r2 :: r3 :: rest, bo, h => by
    have ih := float64_core_notbig rest bo h
    simp only [float64_core, if_neg h,
      if_neg (show ¬ ("little" : String) = "big" by decide), ih]

theorem int32_core_ok : ∀ (regs : List Nat) (bo : String), regs.length % 2 = 0 →
    ∃ vals, int32_core regs bo = .ok vals ∧ vals.length = regs.length / 2
  | [], _, _ => ⟨[], rfl, rfl⟩
  | [_], _, h => by simp at h
  | r0 :: r1 :: rest, bo, h => by
    obtain ⟨vals, hv, hl⟩ :=
      int32_core_ok rest bo (by simp only [List.length_cons] at h ⊢; omega)
    simp only [int32_core, hv]
    exact ⟨_, rfl, by simp only [List.length_cons]; omega⟩

theorem float32_core_ok : ∀ (regs : List Nat) (bo : String), regs.length % 2 = 0 →
    ∃ vals, float32_core regs bo = .ok vals ∧ vals.length = regs.length / 2
  | [], _, _ => ⟨[], rfl, rfl⟩
  | [_], _, h => by simp at h
  | r0 :: r1 :: rest, bo, h => by
    obtain ⟨vals, hv, hl⟩ :=
      float32_core_ok rest bo (by simp only [List.length_cons] at h ⊢; omega)
    simp only [float32_core, hv]
    exact ⟨_, rfl, by simp only [List.length_cons]; omega⟩

theorem float64_core_ok : ∀ (regs : List Nat) (bo : String), regs.length % 4 = 0 →
    ∃ vals, float64_core regs bo = .ok vals ∧ vals.length = regs.length / 4
  | [], _, _ => ⟨[], rfl, rfl⟩
  | [_], _, h => by simp at h
  | [_, _], _, h => by simp at h
  | [_, _, _], _, h => by simp at h
  | r0 :: r1 :: r2 :: r3 :: rest, bo, h => by
    obtain ⟨vals, hv, hl⟩ :=
      float64_core_ok rest bo (by simp only [List.length_cons] at h ⊢; omega)
    simp only [float64_core, hv]
    exact ⟨_, rfl, by simp only [List.length_cons]; omega⟩

theorem read_multiple_insert (t : Transport) (ds1 ds2 : List RegConfig)
    (cfg : RegConfig) (r1 r2 rows : List Row)
    (hp : process_config t cfg = .ok rows)
    (h1 : read_multiple t ds1 = .ok r1) (h2 : read_multiple t ds2 = .ok r2) :
    read_multiple t (ds1 ++ cfg :: ds2) = .ok (r1 ++ rows ++ r2) := by
  induction ds1 generalizing r1 with
  | nil =>
    obtain rfl : ([] : List Row) = r1 := by
      simpa [read_multiple] using h1
    simp [read_multiple, hp, h2]
  | cons d ds ih =>
    rw [List.cons_append]
    simp only [read_multiple] at h1 ⊢
    cases hpd : process_config t d with
    | error e => rw [hpd] at h1; simp at h1
    | ok rowsd =>
      rw [hpd] at h1
      cases hm : read_multiple t ds with
      | error e => rw [hm] at h1; simp at h1
      | ok rest1 =>
        rw [hm] at h1
        rw [ih rest1 hm]
        simp at h1
        simp [← h1, List.append_assoc]

/-! ### Claims -/

/-- C1: decoding a pair of 16-bit words `(hi, lo)` as one Int32 with byte
order big yields `(hi <<< 16) ||| lo` reinterpreted as a two's-complement
signed 32-bit integer (combined values `≥ 2 ^ 31` map to `value - 2 ^ 32`),
and decoding the swapped pair `(lo, hi)` with byte order little yields the
identical integer. -/
theorem int32_pair_big_little (hi lo : Nat) (hhi : hi < 65536) (hlo : lo < 65536) :
    read_int32 (fun _ _ => some [hi, lo]) 0 1 "big"
      = .ok (some (.int (if 2 ^ 31 ≤ (hi <<< 16) ||| lo
          then (((hi <<< 16) ||| lo : Nat) : Int) - 2 ^ 32
          else (((hi <<< 16) ||| lo : Nat) : Int))))
  ∧ read_int32 (fun _ _ => some [lo, hi]) 0 1 "little"
      = .ok (some (.int (if 2 ^ 31 ≤ (hi <<< 16) ||| lo
          then (((hi <<< 16) ||| lo : Nat) : Int) - 2 ^ 32
          else (((hi <<< 16) ||| lo : Nat) : Int)))) := by
  have key : ∀ v : Nat,
      (if v > 2147483647 then (v : Int) - 4294967296 else (v : Int))
        = (if 2 ^ 31 ≤ v then (v : Int) - 2 ^ 32 else (v : Int)) := by
    intro v
    have e31 : (2 : Nat) ^ 31 = 2147483648 := by norm_num
    rcases Nat.lt_or_ge v 2147483648 with h | h
    · rw [if_neg (by omega), if_neg (by rw [e31]; omega)]
    · rw [if_pos (by omega), if_pos (by rw [e31]; omega)]
      norm_num
  have big : read_int32 (fun _ _ => some [hi, lo]) 0 1 "big"
      = .ok (some (.int (if (hi <<< 16) ||| lo > 2147483647
          then (((hi <<< 16) ||| lo : Nat) : Int) - 4294967296
          else (((hi <<< 16) ||| lo : Nat) : Int)))) := rfl
  have little : read_int32 (fun _ _ => some [lo, hi]) 0 1 "little"
      = .ok (some (.int (if (hi <<< 16) ||| lo > 2147483647
          then (((hi <<< 16) ||| lo : Nat) : Int) - 4294967296
          else (((hi <<< 16) ||| lo : Nat) : Int)))) := rfl
  constructor
  · rw [big, key]
  · rw [little, key]

/-- Witness for C1 at `hi = 40000`, `lo = 123`
(combined `2621440123`, signed value `-1673527173`). -/
theorem int32_pair_big_little_inst :
    read_int32 (fun _ _ => some [40000, 123]) 0 1 "big"
      = .ok (some (.int (if 2 ^ 31 ≤ (40000 <<< 16) ||| 123
          then (((40000 <<< 16) ||| 123 : Nat) : Int) - 2 ^ 32
          else (((40000 <<< 16) ||| 123 : Nat) : Int))))
  ∧ read_int32 (fun _ _ => some [123, 40000]) 0 1 "little"
      = .ok (some (.int (if 2 ^ 31 ≤ (40000 <<< 16) ||| 123
          then (((40000 <<< 16) ||| 123 : Nat) : Int) - 2 ^ 32
          else (((40000 <<< 16) ||| 123 : Nat) : Int)))) :=
  int32_pair_big_little 40000 123 (by norm_num) (by norm_num)

/-- C2: for every `v` in `[-32768, 32767]`, encoding `v` as the raw word
`v mod 65536` and decoding it as Int16 with `signed = true` returns exactly
`v` (the decoder maps words `> 32767`, i.e. `≥ 32768`, to `word - 65536`
and leaves smaller words unchanged). -/
theorem int16_signed_roundtrip (v : Int) (h1 : -32768 ≤ v) (h2 : v ≤ 32767) :
    read_int16 (fun _ _ => some [(v % 65536).toNat]) 0 1 true
      = .ok (some (.int v)) := by
  have e : read_int16 (fun _ _ => some [(v % 65536).toNat]) 0 1 true
      = .ok (some (.int (if (v % 65536).toNat > 32767
          then ((v % 65536).toNat : Int) - 65536
          else ((v % 65536).toNat : Int)))) := by
    simp [read_int16, wrap]
  rw [e]
  have hx : (if (v % 65536).toNat > 32767
      then ((v % 65536).toNat : Int) - 65536
      else ((v % 65536).toNat : Int)) = v := by
    split <;> omega
  rw [hx]

/-- Witness for C2 at `v = -5` (raw word `65531`). -/
theorem int16_signed_roundtrip_inst :
    read_int16 (fun _ _ => some [((-5 : Int) % 65536).toNat]) 0 1 true
      = .ok (some (.int (-5))) :=
  int16_signed_roundtrip (-5) (by norm_num) (by norm_num)

/-- C3 counterexample: the Int32 decoder called with 3 raw words and
`count = 1` does not fail with a `MalformedInput` error — the code has no
length check at all; it decodes the first register pair and then crashes
with an out-of-range index (`registers[i + 1]` at `i = 2`), modelled as
`PyErr.indexError`. -/
theorem int32_three_words_cex :
    read_int32 (fun _ _ => some [1, 2, 3]) 0 1 "big"
      = .error PyErr.indexError := rfl

/-- C3 (amended): no decode operation checks the input length; the Int32
decoder given 3 raw words and `count = 1` decodes the first pair and then
fails with an index-out-of-range exception (a crash), for every choice of
words and byte order — not with a `MalformedInput` error. -/
theorem int32_three_words_index_error (a b c : Nat) (bo : String) :
    read_int32 (fun _ _ => some [a, b, c]) 0 1 bo
      = .error PyErr.indexError := by
  simp [read_int32, int32_core]

/-- C8: for every IEEE-754 single-precision bit pattern `bits`, splitting
its 4-byte big-endian representation into two 16-bit words
(`bits / 2 ^ 16` and `bits % 2 ^ 16`) and decoding that pair as Float32
with byte order big returns the float with exactly the bit pattern `bits`
(floats are modelled by their bit patterns, which determines the float
bit-exactly up to NaN payloads). -/
theorem float32_big_roundtrip (bits : Nat) (h : bits < 4294967296) :
    read_float32 (fun _ _ => some [bits / 65536, bits % 65536]) 0 1 "big"
      = .ok (some (.float32 bits)) := by
  have e : read_float32 (fun _ _ => some [bits / 65536, bits % 65536]) 0 1 "big"
      = .ok (some (.float32
          (unpack_be (pack16be (bits / 65536) ++ pack16be (bits % 65536))))) := rfl
  rw [e]
  have hb : unpack_be (pack16be (bits / 65536) ++ pack16be (bits % 65536)) = bits := by
    simp only [pack16be, unpack_be, List.cons_append, List.nil_append,
      List.foldl_cons, List.foldl_nil]
    omega
  rw [hb]

/-- Witness for C8 at `bits = 0x12345678` (words `4660` and `22136`). -/
theorem float32_big_roundtrip_inst :
    read_float32 (fun _ _ => some [305419896 / 65536, 305419896 % 65536]) 0 1 "big"
      = .ok (some (.float32 305419896)) :=
  float32_big_roundtrip 305419896 (by norm_num)

/-- C10: the byte-order argument of the Int32, Float32 and Float64 decoders
is never validated — for every string other than exactly `"big"` (including
`"BIG"`, `"Big"`, or any arbitrary string) decoding behaves identically to
`byte_order = "little"`, and no error is raised for an unrecognized
byte-order value. -/
theorem byte_order_not_validated (bo : String) (t : Transport) (a c : Nat)
    (h : bo ≠ "big") :
    read_int32 t a c bo = read_int32 t a c "little"
  ∧ read_float32 t a c bo = read_float32 t a c "little"
  ∧ read_float64 t a c bo = read_float64 t a c "little" := by
  refine ⟨?_, ?_, ?_⟩
  · cases ht : t a (c * 2) with
    | none => simp [read_int32, ht]
    | some regs => simp [read_int32, ht, int32_core_notbig regs bo h]
  · cases ht : t a (c * 2) with
    | none => simp [read_float32, ht]
    | some regs => simp [read_float32, ht, float32_core_notbig regs bo h]
  · cases ht : t a (c * 4) with
    | none => simp [read_float64, ht]
    | some regs => simp [read_float64, ht, float64_core_notbig regs bo h]

/-- Result-shape helper for `read_int16`. -/
theorem read_int16_shape (regs : List Nat) (count : Nat) (signed : Bool)
    (h : regs.length = count) :
    ∃ v, read_int16 (fun _ _ => some regs) 0 count signed = .ok (some v) ∧
      (if count = 1 then v.isList = false
       else ∃ vs, v = PyVal.list vs ∧ vs.length = count) := by
  by_cases hc1 : count = 1
  · subst hc1
    obtain ⟨r, rfl⟩ := List.length_eq_one.mp h
    refine ⟨.int (if signed then
      (if r > 32767 then (r : Int) - 65536 else (r : Int)) else (r : Int)), ?_, ?_⟩
    · simp [read_int16, wrap]
    · simp [PyVal.isList]
  · refine ⟨.list ((regs.map fun (reg : Nat) => if signed then
      (if reg > 32767 then (reg : Int) - 65536 else (reg : Int))
      else (reg : Int)).map PyVal.int), ?_, ?_⟩
    · simp [read_int16, wrap, hc1]
    · rw [if_neg hc1]
      exact ⟨_, rfl, by rw [List.length_map, List.length_map]; exact h⟩

/-- Result-shape helper for `read_int32`. -/
theorem read_int32_shape (regs : List Nat) (count : Nat) (bo : String)
    (h : regs.length = count * 2) :
    ∃ v, read_int32 (fun _ _ => some regs) 0 count bo = .ok (some v) ∧
      (if count = 1 then v.isList = false
       else ∃ vs, v = PyVal.list vs ∧ vs.length = count) := by
  obtain ⟨vals, hv, hl⟩ := int32_core_ok regs bo (by omega)
  have hlen : vals.length = count := by omega
  by_cases hc1 : count = 1
  · subst hc1
    obtain ⟨x, rfl⟩ := List.length_eq_one.mp hlen
    refine ⟨.int x, ?_, ?_⟩
    · simp [read_int32, hv, wrap]
    · simp [PyVal.isList]
  · refine ⟨.list (vals.map PyVal.int), ?_, ?_⟩
    · simp [read_int32, hv, wrap, hc1]
    · rw [if_neg hc1]
      exact ⟨_, rfl, by simp [hlen]⟩

/-- Result-shape helper for `read_float32`. -/
theorem read_float32_shape (regs : List Nat) (count : Nat) (bo : String)
    (h : regs.length = count * 2) :
    ∃ v, read_float32 (fun _ _ => some regs) 0 count bo = .ok (some v) ∧
      (if count = 1 then v.isList = false
       else ∃ vs, v = PyVal.list vs ∧ vs.length = count) := by
  obtain ⟨vals, hv, hl⟩ := float32_core_ok regs bo (by omega)
  have hlen : vals.length = count := by omega
  by_cases hc1 : count = 1
  · subst hc1
    obtain ⟨x, rfl⟩ := List.length_eq_one.mp hlen
    refine ⟨.float32 x, ?_, ?_⟩
    · simp [read_float32, hv, wrap]
    · simp [PyVal.isList]
  · refine ⟨.list (vals.map PyVal.float32), ?_, ?_⟩
    · simp [read_float32, hv, wrap, hc1]
    · rw [if_neg hc1]
      exact ⟨_, rfl, by simp [hlen]⟩

/-- Result-shape helper for `read_float64`. -/
theorem read_float64_shape (regs : List Nat) (count : Nat) (bo : String)
    (h : regs.length = count * 4) :
    ∃ v, read_float64 (fun _ _ => some regs) 0 count bo = .ok (some v) ∧
      (if count = 1 then v.isList = false
       else ∃ vs, v = PyVal.list vs ∧ vs.length = count) := by
  obtain ⟨vals, hv, hl⟩ := float64_core_ok regs bo (by omega)
  have hlen : vals.length = count := by omega
  by_cases hc1 : count = 1
  · subst hc1
    obtain ⟨x, rfl⟩ := List.length_eq_one.mp hlen
    refine ⟨.float64 x, ?_, ?_⟩
    · simp [read_float64, hv, wrap]
    · simp [PyVal.isList]
  · refine ⟨.list (vals.map PyVal.float64), ?_, ?_⟩
    · simp [read_float64, hv, wrap, hc1]
    · rw [if_neg hc1]
      exact ⟨_, rfl, by simp [hlen]⟩

/-- Result-shape helper for `read_bitmap`. -/
theorem read_bitmap_shape (regs : List Nat) (count : Nat)
    (h : regs.length = count) :
    ∃ bs, read_bitmap (fun _ _ => some regs) 0 count = .ok (some (.list bs)) ∧
      (if count = 1 then bs.length = 16 else bs.length = count) := by
  by_cases hc1 : count = 1
  · subst hc1
    obtain ⟨r, rfl⟩ := List.length_eq_one.mp h
    refine ⟨bitmap_bits r, ?_, ?_⟩
    · simp [read_bitmap]
    · simp [bitmap_bits]
  · refine ⟨regs.map (fun reg => .list (bitmap_bits reg)), ?_, ?_⟩
    · simp [read_bitmap, hc1]
    · rw [if_neg hc1]
      simp [h]

/-- C4 counterexample: with `count = 1` the Int16 decoder returns the bare
scalar, not a one-element sequence — decoding the single word 5 yields the
Python int 5 (not a list), so the unwrapping to a scalar is performed by
the decoder itself, not layered above it. -/
theorem count_one_scalar_cex :
    read_int16 (fun _ _ => some [5]) 0 1 true = .ok (some (.int 5))
  ∧ (PyVal.int 5).isList = false := ⟨rfl, rfl⟩

/-- C4 (amended): for every `count > 1`, a successful decode returns a
sequence of exactly `count` decoded values (for Bitmap, `count` sequences
of 16 booleans); but when `count = 1` the decoder itself returns the single
decoded value unwrapped — a scalar for Int16/Int32/Float32/Float64, and a
single 16-boolean sequence for Bitmap — so the unwrapping is performed by
the decoder, not layered above it. -/
theorem decode_result_shape (count : Nat)
    (regs16 regs32 regsF32 regsF64 regsBM : List Nat) (signed : Bool) (bo : String)
    (hc : 1 ≤ count)
    (h16 : regs16.length = count) (h32 : regs32.length = count * 2)
    (hF32 : regsF32.length = count * 2) (hF64 : regsF64.length = count * 4)
    (hBM : regsBM.length = count) :
    (∃ v, read_int16 (fun _ _ => some regs16) 0 count signed = .ok (some v) ∧
       (if count = 1 then v.isList = false
        else ∃ vs, v = PyVal.list vs ∧ vs.length = count))
  ∧ (∃ v, read_int32 (fun _ _ => some regs32) 0 count bo = .ok (some v) ∧
       (if count = 1 then v.isList = false
        else ∃ vs, v = PyVal.list vs ∧ vs.length = count))
  ∧ (∃ v, read_float32 (fun _ _ => some regsF32) 0 count bo = .ok (some v) ∧
       (if count = 1 then v.isList = false
        else ∃ vs, v = PyVal.list vs ∧ vs.length = count))
  ∧ (∃ v, read_float64 (fun _ _ => some regsF64) 0 count bo = .ok (some v) ∧
       (if count = 1 then v.isList = false
        else ∃ vs, v = PyVal.list vs ∧ vs.length = count))
  ∧ (∃ bs, read_bitmap (fun _ _ => some regsBM) 0 count = .ok (some (.list bs)) ∧
       (if count = 1 then bs.length = 16 else bs.length = count)) :=
  ⟨read_int16_shape regs16 count signed h16,
   read_int32_shape regs32 count bo h32,
   read_float32_shape regsF32 count bo hF32,
   read_float64_shape regsF64 count bo hF64,
   read_bitmap_shape regsBM count hBM⟩

/-- Witness for C4 (amended) at `count = 2`. -/
theorem decode_result_shape_inst :
    (∃ v, read_int16 (fun _ _ => some [1, 2]) 0 2 true = .ok (some v) ∧
       (if 2 = 1 then v.isList = false
        else ∃ vs, v = PyVal.list vs ∧ vs.length = 2))
  ∧ (∃ v, read_int32 (fun _ _ => some [0, 1, 0, 2]) 0 2 "big" = .ok (some v) ∧
       (if 2 = 1 then v.isList = false
        else ∃ vs, v = PyVal.list vs ∧ vs.length = 2))
  ∧ (∃ v, read_float32 (fun _ _ => some [0, 1, 0, 2]) 0 2 "big" = .ok (some v) ∧
       (if 2 = 1 then v.isList = false
        else ∃ vs, v = PyVal.list vs ∧ vs.length = 2))
  ∧ (∃ v, read_float64 (fun _ _ => some [0, 0, 0, 1, 0, 0, 0, 2]) 0 2 "big"
        = .ok (some v) ∧
       (if 2 = 1 then v.isList = false
        else ∃ vs, v = PyVal.list vs ∧ vs.length = 2))
  ∧ (∃ bs, read_bitmap (fun _ _ => some [3, 4]) 0 2 = .ok (some (.list bs)) ∧
       (if 2 = 1 then bs.length = 16 else bs.length = 2)) :=
  decode_result_shape 2 [1, 2] [0, 1, 0, 2] [0, 1, 0, 2] [0, 0, 0, 1, 0, 0, 0, 2]
    [3, 4] true "big" (by norm_num) rfl rfl rfl rfl rfl

/-- Helper: mapping a function of the index over `l.enum`. -/
theorem enum_map_comp_fst {α β : Type} (l : List α) (g : Nat → β) :
    l.enum.map (fun p => g p.1) = (List.range l.length).map g := by
  have h1 : l.enum.map (fun p => g p.1) = (l.enum.map Prod.fst).map g := by
    rw [List.map_map]
    rfl
  rw [h1]
  congr 1
  simp

/-- Helper: mapping the value component over `l.enum`. -/
theorem enum_map_comp_snd {α : Type} (l : List α) :
    l.enum.map (fun p => p.2) = l := by
  simp

/-- C5 counterexample: a descriptor with `count = 3` and the (legal,
case-insensitively dispatched) type spelling `"float32"` at address 10
whose read and decode succeed produces rows at addresses 10, 11, 12 —
not `base + i * wordWidth(Float32)` = 10, 12, 14, because the address
stride is computed case-sensitively from the original string. -/
theorem multi_row_stride_cex :
    (read_multiple (fun _ _ => some [0, 0, 0, 0, 0, 0])
        [⟨some "f", 10, "float32", some 3, none, none, ⟨none, none⟩⟩]).map
      (fun rows => rows.map Row.address) = Except.ok [10, 11, 12]
  ∧ ([10, 11, 12] : List Nat) ≠ [10, 12, 14] := ⟨rfl, by decide⟩

/-- C5 (amended): for every descriptor with `count > 1` whose read and
decode succeed with `count` decoded values, the Assembler emits exactly
`count` Reading rows, the i-th carrying the name suffixed with `[i]`, the
address `base + i * stride`, and the i-th decoded value — where the stride
is 2 for the exact strings `"INT32"` and `"FLOAT32"`, 4 for `"FLOAT64"`,
and 1 otherwise; this equals `wordWidth(dataType)` when the descriptor's
data type is spelled in canonical uppercase, but is 1 for other spellings
of the multi-word types. -/
theorem multi_row_expansion (t : Transport) (cfg : RegConfig) (vs : List PyVal)
    (hc : 1 < cfg.count.getD 1)
    (hv : (read_custom t cfg.address cfg.data_type (cfg.count.getD 1)
        cfg.options).2 = .ok (some (.list vs)))
    (hlen : vs.length = cfg.count.getD 1) :
    ∃ rows, process_config t cfg = .ok rows ∧
      rows.length = cfg.count.getD 1 ∧
      rows.map Row.address = (List.range (cfg.count.getD 1)).map
        (fun i => cfg.address + i * row_stride cfg.data_type) ∧
      rows.map Row.name = (List.range (cfg.count.getD 1)).map
        (fun i => cfg.name.getD ("Register_" ++ toString cfg.address)
          ++ "[" ++ toString i ++ "]") ∧
      rows.map Row.value = vs := by
  have hpc : process_config t cfg = .ok (vs.enum.map fun p =>
      ⟨cfg.name.getD ("Register_" ++ toString cfg.address)
         ++ "[" ++ toString p.1 ++ "]",
       cfg.address + p.1 * row_stride cfg.data_type, cfg.data_type, p.2,
       cfg.unit.getD "", cfg.description.getD ""⟩) := by
    simp only [process_config, hv]
    rw [if_pos hc]
  refine ⟨_, hpc, ?_, ?_, ?_, ?_⟩
  · simp [hlen]
  · rw [List.map_map]
    have h2 := enum_map_comp_fst vs
      (fun i => cfg.address + i * row_stride cfg.data_type)
    rw [hlen] at h2
    exact h2
  · rw [List.map_map]
    have h3 := enum_map_comp_fst vs
      (fun i => cfg.name.getD ("Register_" ++ toString cfg.address)
        ++ "[" ++ toString i ++ "]")
    rw [hlen] at h3
    exact h3
  · rw [List.map_map]
    exact enum_map_comp_snd vs

/-- Witness for C5 (amended): a FLOAT32 descriptor (canonical spelling)
with `count = 3` at address 10 expands to rows at addresses 10, 12, 14. -/
theorem multi_row_expansion_inst :
    ∃ rows, process_config (fun _ _ => some [0, 0, 0, 0, 0, 0])
        ⟨some "f", 10, "FLOAT32", some 3, none, none, ⟨none, none⟩⟩ = .ok rows ∧
      rows.length = (⟨some "f", 10, "FLOAT32", some 3, none, none,
        ⟨none, none⟩⟩ : RegConfig).count.getD 1 ∧
      rows.map Row.address = (List.range ((⟨some "f", 10, "FLOAT32", some 3, none,
        none, ⟨none, none⟩⟩ : RegConfig).count.getD 1)).map
        (fun i => (⟨some "f", 10, "FLOAT32", some 3, none, none,
          ⟨none, none⟩⟩ : RegConfig).address + i * row_stride
            (⟨some "f", 10, "FLOAT32", some 3, none, none,
              ⟨none, none⟩⟩ : RegConfig).data_type) ∧
      rows.map Row.name = (List.range ((⟨some "f", 10, "FLOAT32", some 3, none,
        none, ⟨none, none⟩⟩ : RegConfig).count.getD 1)).map
        (fun i => (⟨some "f", 10, "FLOAT32", some 3, none, none,
          ⟨none, none⟩⟩ : RegConfig).name.getD ("Register_"
            ++ toString (⟨some "f", 10, "FLOAT32", some 3, none, none,
              ⟨none, none⟩⟩ : RegConfig).address) ++ "[" ++ toString i ++ "]") ∧
      rows.map Row.value = [.float32 0, .float32 0, .float32 0] :=
  multi_row_expansion (fun _ _ => some [0, 0, 0, 0, 0, 0])
    ⟨some "f", 10, "FLOAT32", some 3, none, none, ⟨none, none⟩⟩
    [.float32 0, .float32 0, .float32 0] (by norm_num) rfl rfl

/-- C6: when the transport fails for one descriptor of a known data type,
the Assembler emits exactly one error-marked Reading for that descriptor —
preserving its name, address, data type, unit and description — at its
original position, and continues with the remaining descriptors in input
order. -/
theorem transport_failure_single_error_row (t : Transport)
    (ds1 ds2 : List RegConfig) (cfg : RegConfig) (r1 r2 : List Row)
    (hknown : upper cfg.data_type = "INT16" ∨ upper cfg.data_type = "INT32" ∨
      upper cfg.data_type = "FLOAT32" ∨ upper cfg.data_type = "FLOAT64" ∨
      upper cfg.data_type = "BITMAP")
    (hfail : ∀ n, t cfg.address n = none)
    (h1 : read_multiple t ds1 = .ok r1) (h2 : read_multiple t ds2 = .ok r2) :
    read_multiple t (ds1 ++ cfg :: ds2)
      = .ok (r1 ++ ⟨cfg.name.getD ("Register_" ++ toString cfg.address),
          cfg.address, cfg.data_type, PyVal.str "Error", cfg.unit.getD "",
          cfg.description.getD ""⟩ :: r2) := by
  have hcustom : (read_custom t cfg.address cfg.data_type (cfg.count.getD 1)
      cfg.options).2 = .ok none := by
    rcases hknown with h | h | h | h | h <;>
      simp [read_custom, h, read_int16, read_int32, read_float32, read_float64,
        read_bitmap, hfail]
  have hp : process_config t cfg
      = .ok [⟨cfg.name.getD ("Register_" ++ toString cfg.address), cfg.address,
          cfg.data_type, PyVal.str "Error", cfg.unit.getD "",
          cfg.description.getD ""⟩] := by
    simp only [process_config, hcustom]
  have hins := read_multiple_insert t ds1 ds2 cfg r1 r2 _ hp h1 h2
  simpa using hins

/-- Witness for C6: a 3-entry list whose second read fails yields 3
Readings, two normal and one error-marked at its original position. -/
theorem transport_failure_single_error_row_inst :
    read_multiple (fun a n => if a = 2 then none else some (List.replicate n 1))
      [⟨some "d1", 0, "INT16", none, none, none, ⟨none, none⟩⟩,
       ⟨some "d2", 2, "FLOAT32", none, some "V", some "volts", ⟨none, none⟩⟩,
       ⟨some "d3", 5, "INT16", none, none, none, ⟨none, none⟩⟩]
      = .ok [⟨"d1", 0, "INT16", .int 1, "", ""⟩,
             ⟨"d2", 2, "FLOAT32", .str "Error", "V", "volts"⟩,
             ⟨"d3", 5, "INT16", .int 1, "", ""⟩] :=
  transport_failure_single_error_row
    (fun a n => if a = 2 then none else some (List.replicate n 1))
    [⟨some "d1", 0, "INT16", none, none, none, ⟨none, none⟩⟩]
    [⟨some "d3", 5, "INT16", none, none, none, ⟨none, none⟩⟩]
    ⟨some "d2", 2, "FLOAT32", none, some "V", some "volts", ⟨none, none⟩⟩
    [⟨"d1", 0, "INT16", .int 1, "", ""⟩] [⟨"d3", 5, "INT16", .int 1, "", ""⟩]
    (Or.inr (Or.inr (Or.inl rfl))) (fun _ => rfl) rfl rfl

/-- C7: the type-name dispatch is case-insensitive — lowercase and
uppercase spellings of the five known names produce identical results —
and every name whose uppercasing is none of the five known types fails
by printing a diagnostic naming the (uppercased) unsupported value and
enumerating the supported set, and returning `None`. -/
theorem read_custom_dispatch (t : Transport) (a c : Nat) (kw : Kwargs)
    (name : String)
    (h16 : upper name ≠ "INT16") (h32 : upper name ≠ "INT32")
    (hf32 : upper name ≠ "FLOAT32") (hf64 : upper name ≠ "FLOAT64")
    (hbm : upper name ≠ "BITMAP") :
    read_custom t a "int16" c kw = read_custom t a "INT16" c kw
  ∧ read_custom t a "int32" c kw = read_custom t a "INT32" c kw
  ∧ read_custom t a "float32" c kw = read_custom t a "FLOAT32" c kw
  ∧ read_custom t a "float64" c kw = read_custom t a "FLOAT64" c kw
  ∧ read_custom t a "bitmap" c kw = read_custom t a "BITMAP" c kw
  ∧ read_custom t a name c kw =
      (["✗ Unsupported data type: " ++ upper name,
        "Supported types: INT16, INT32, FLOAT32, FLOAT64, BITMAP"], .ok none) := by
  refine ⟨rfl, rfl, rfl, rfl, rfl, ?_⟩
  simp [read_custom, h16, h32, hf32, hf64, hbm]

/-- Witness for C7 at `name = "INT8"`. -/
theorem read_custom_dispatch_inst :
    read_custom (fun _ _ => some []) 0 "int16" 1 ⟨none, none⟩
      = read_custom (fun _ _ => some []) 0 "INT16" 1 ⟨none, none⟩
  ∧ read_custom (fun _ _ => some []) 0 "int32" 1 ⟨none, none⟩
      = read_custom (fun _ _ => some []) 0 "INT32" 1 ⟨none, none⟩
  ∧ read_custom (fun _ _ => some []) 0 "float32" 1 ⟨none, none⟩
      = read_custom (fun _ _ => some []) 0 "FLOAT32" 1 ⟨none, none⟩
  ∧ read_custom (fun _ _ => some []) 0 "float64" 1 ⟨none, none⟩
      = read_custom (fun _ _ => some []) 0 "FLOAT64" 1 ⟨none, none⟩
  ∧ read_custom (fun _ _ => some []) 0 "bitmap" 1 ⟨none, none⟩
      = read_custom (fun _ _ => some []) 0 "BITMAP" 1 ⟨none, none⟩
  ∧ read_custom (fun _ _ => some []) 0 "INT8" 1 ⟨none, none⟩
      = (["✗ Unsupported data type: " ++ upper "INT8",
          "Supported types: INT16, INT32, FLOAT32, FLOAT64, BITMAP"], .ok none) :=
  read_custom_dispatch (fun _ _ => some []) 0 1 ⟨none, none⟩ "INT8"
    (by decide) (by decide) (by decide) (by decide) (by decide)

/-- C9 counterexample: a descriptor whose data-type name is unsupported
(`"INT8"`) does not surface a decoder error to the caller of the batch
operation — the Assembler converts the decoder's `None` into an
error-marked Reading and returns it in the batch output. -/
theorem unsupported_type_error_row_cex :
    read_multiple (fun _ _ => some [])
      [⟨some "X", 7, "INT8", none, some "u", some "d", ⟨none, none⟩⟩]
      = .ok [⟨"X", 7, "INT8", .str "Error", "u", "d"⟩] := rfl

/-- C9 (amended): decoder failures are signalled by the same `None`
sentinel as transport failures, and the Assembler cannot distinguish them:
a descriptor whose data-type name (uppercased) is none of the five known
types yields exactly one error-marked Reading at its original position —
preserving name, address, data type, unit and description — and the batch
continues with the remaining descriptors instead of surfacing the error. -/
theorem unsupported_type_error_row (t : Transport) (ds1 ds2 : List RegConfig)
    (cfg : RegConfig) (r1 r2 : List Row)
    (h16 : upper cfg.data_type ≠ "INT16") (h32 : upper cfg.data_type ≠ "INT32")
    (hf32 : upper cfg.data_type ≠ "FLOAT32")
    (hf64 : upper cfg.data_type ≠ "FLOAT64")
    (hbm : upper cfg.data_type ≠ "BITMAP")
    (h1 : read_multiple t ds1 = .ok r1) (h2 : read_multiple t ds2 = .ok r2) :
    read_multiple t (ds1 ++ cfg :: ds2)
      = .ok (r1 ++ ⟨cfg.name.getD ("Register_" ++ toString cfg.address),
          cfg.address, cfg.data_type, PyVal.str "Error", cfg.unit.getD "",
          cfg.description.getD ""⟩ :: r2) := by
  have hcustom : (read_custom t cfg.address cfg.data_type (cfg.count.getD 1)
      cfg.options).2 = .ok none := by
    simp [read_custom, h16, h32, hf32, hf64, hbm]
  have hp : process_config t cfg
      = .ok [⟨cfg.name.getD ("Register_" ++ toString cfg.address), cfg.address,
          cfg.data_type, PyVal.str "Error", cfg.unit.getD "",
          cfg.description.getD ""⟩] := by
    simp only [process_config, hcustom]
  have hins := read_multiple_insert t ds1 ds2 cfg r1 r2 _ hp h1 h2
  simpa using hins

/-- Witness for C9 (amended): an INT8 descriptor in a 2-entry batch
produces an error row at its position while the rest decode normally. -/
theorem unsupported_type_error_row_inst :
    read_multiple (fun _ _ => some [0])
      [⟨some "ok", 0, "INT16", none, none, none, ⟨none, none⟩⟩,
       ⟨some "bad", 9, "INT8", none, none, none, ⟨none, none⟩⟩]
      = .ok [⟨"ok", 0, "INT16", .int 0, "", ""⟩,
             ⟨"bad", 9, "INT8", .str "Error", "", ""⟩] :=
  unsupported_type_error_row (fun _ _ => some [0])
    [⟨some "ok", 0, "INT16", none, none, none, ⟨none, none⟩⟩] []
    ⟨some "bad", 9, "INT8", none, none, none, ⟨none, none⟩⟩
    [⟨"ok", 0, "INT16", .int 0, "", ""⟩] []
    (by decide) (by decide) (by decide) (by decide) (by decide) rfl rfl

/-- Witness for C10 at `bo = "BIG"` (uppercase is not recognized). -/
theorem byte_order_not_validated_inst :
    read_int32 (fun _ _ => some [1, 2]) 5 1 "BIG"
      = read_int32 (fun _ _ => some [1, 2]) 5 1 "little"
  ∧ read_float32 (fun _ _ => some [1, 2]) 5 1 "BIG"
      = read_float32 (fun _ _ => some [1, 2]) 5 1 "little"
  ∧ read_float64 (fun _ _ => some [1, 2]) 5 1 "BIG"
      = read_float64 (fun _ _ => some [1, 2]) 5 1 "little" :=
  byte_order_not_validated "BIG" (fun _ _ => some [1, 2]) 5 1 (by decide)

end ModbusSpec
